import Mathlib

/-!
Shallow embedding of the NerfWars scoreboard core (src/app/page.tsx):
the replicated `ScoreboardState` document, the clock-corrected countdown
formula `remainingSeconds`, the pause/resume/reset/mode transitions, the
subscription callback's repair-and-merge pass, and the store's
unconditional-overwrite write semantics.

Timestamps and scores are JS numbers used as integers in the source; they
are modelled as `Int`.  `Math.floor` of a division by the positive literal
1000 is `Int.fdiv` (floor division).  JS truthiness of
`state.timer.endTime` (null and 0 are both falsy) is modelled explicitly.
-/

namespace NerfWars

/-- Player record from page.tsx (interface Player): a name and a score. -/
structure Player where
  name : String
  score : Int
deriving Repr, DecidableEq

/-- Timer record from page.tsx (interface TimerState): `endTime` is
`number | null`, an absolute timestamp in server-time milliseconds. -/
structure TimerState where
  endTime : Option Int
deriving Repr, DecidableEq

/-- The replicated document from page.tsx (interface ScoreboardState). -/
structure ScoreboardState where
  playersA : List Player
  playersB : List Player
  timer : TimerState
  isPaused : Bool
  pointsToWin : Int
  numPlayersPerTeam : Nat
deriving Repr, DecidableEq

/-- A value of TypeScript type `Partial<ScoreboardState>`: each top-level
field optionally present.  Also the shape of a raw incoming snapshot whose
top-level fields may be missing (legacy documents). -/
structure ScoreboardUpdate where
  playersA : Option (List Player) := none
  playersB : Option (List Player) := none
  timer : Option TimerState := none
  isPaused : Option Bool := none
  pointsToWin : Option Int := none
  numPlayersPerTeam : Option Nat := none
deriving Repr, DecidableEq

/-- The empty partial update (no fields present). -/
def emptyUpdate : ScoreboardUpdate := {}

/-- Team identifier: the two rosters `playersA` and `playersB`. -/
inductive Team
  | A
  | B
deriving Repr, DecidableEq

/-- The roster of a team inside a document (the `state[team]` accesses). -/
def roster (s : ScoreboardState) : Team → List Player
  | Team.A => s.playersA
  | Team.B => s.playersB

/-- Default document written and exposed on the bootstrap path
(page.tsx `initialState`, lines 25-38): two players per roster. -/
def initialState : ScoreboardState :=
  { playersA := [{ name := "Player 1 Name", score := 0 },
                 { name := "Player 2 Name", score := 0 }],
    playersB := [{ name := "Player 1 Name", score := 0 },
                 { name := "Player 2 Name", score := 0 }],
    timer := { endTime := none },
    isPaused := true,
    pointsToWin := 50,
    numPlayersPerTeam := 2 }

/-- Default countdown duration (page.tsx line 40), 450 seconds = 7:30. -/
def INITIAL_TIMER_SECONDS : Int := 450

/-- Placeholder player pushed by the repair loop and by `handleMode`:
name `Player {n} Name` with n the 1-based position, score 0. -/
def placeholder (n : Nat) : Player :=
  { name := "Player " ++ toString n ++ " Name", score := 0 }

/-- Fuelled form of the padding while-loop
`while (list.length < num) list.push(placeholder(list.length + 1))`
(page.tsx lines 62-64 with num = 3, and lines 137-139 with num the new
mode).  Each iteration grows the list by one, so `num` units of fuel are
always enough; the fuel makes the recursion structural. -/
def padRosterGo (num : Nat) : Nat → List Player → List Player
  | 0, ps => ps
  | fuel + 1, ps =>
    if ps.length < num then
      padRosterGo num fuel (ps ++ [placeholder (ps.length + 1)])
    else ps

/-- The padding while-loop: append placeholder players until the roster
has at least `num` entries. -/
def padRoster (num : Nat) (ps : List Player) : List Player :=
  padRosterGo num num ps

/-- Shallow top-level merge `\x7b ...s, ...u \x7d`: every field present in
the update `u` overrides, every absent field is carried from `s`. -/
def mergeState (s : ScoreboardState) (u : ScoreboardUpdate) : ScoreboardState :=
  { playersA := u.playersA.getD s.playersA,
    playersB := u.playersB.getD s.playersB,
    timer := u.timer.getD s.timer,
    isPaused := u.isPaused.getD s.isPaused,
    pointsToWin := u.pointsToWin.getD s.pointsToWin,
    numPlayersPerTeam := u.numPlayersPerTeam.getD s.numPlayersPerTeam }

/-- The `onValue(scoreboardRef)` subscription callback (page.tsx lines
54-68), as the snapshot it exposes to the consumer via `setState`.
On `null` data it writes and exposes `initialState` (bootstrap path).
Otherwise it first runs the repair loop on `data.playersA` and
`data.playersB` in place — dereferencing `data[team].length`, which in JS
throws a TypeError when the field is missing — and then exposes
`\x7b ...initialState, ...data \x7d` (merge with defaults).  The thrown
TypeError is modelled as `Except.error`. -/
def processSnapshot (data : Option ScoreboardUpdate) : Except String ScoreboardState :=
  match data with
  | none => Except.ok initialState
  | some d =>
    match d.playersA with
    | none => Except.error "TypeError: cannot read length of undefined"
    | some pa =>
      match d.playersB with
      | none => Except.error "TypeError: cannot read length of undefined"
      | some pb =>
        Except.ok (mergeState initialState
          { d with playersA := some (padRoster 3 pa),
                   playersB := some (padRoster 3 pb) })

/-- Corrected current time (page.tsx line 83):
`serverNow() = Date.now() + timeOffset`. -/
def serverNow (localNow offset : Int) : Int := localNow + offset

/-- Displayed remaining seconds (page.tsx lines 104-106):
`state.timer.endTime ? Math.max(0, Math.floor((endTime - serverNow())/1000)) : INITIAL_TIMER_SECONDS`.
JS truthiness: both a null and a 0 `endTime` take the default branch. -/
def remainingSeconds (s : ScoreboardState) (now : Int) : Int :=
  match s.timer.endTime with
  | some e => if e = 0 then INITIAL_TIMER_SECONDS else max 0 (Int.fdiv (e - now) 1000)
  | none => INITIAL_TIMER_SECONDS

/-- The partial update issued by `handleResume` (page.tsx lines 110-120):
when paused, resume with `endTime = now + remainingSeconds * 1000` and
`isPaused = false`; when running, pause with `isPaused = true` only. -/
def handleResumeUpdate (s : ScoreboardState) (now : Int) : ScoreboardUpdate :=
  if s.isPaused then
    { emptyUpdate with
      timer := some { endTime := some (now + remainingSeconds s now * 1000) },
      isPaused := some false }
  else
    { emptyUpdate with isPaused := some true }

/-- The full document written by `handleResume` through
`updateState` (merge of the mirror with the partial update). -/
def handleResume (s : ScoreboardState) (now : Int) : ScoreboardState :=
  mergeState s (handleResumeUpdate s now)

/-- The partial update issued by `handleResetTimer` (page.tsx lines
122-124): clear `endTime` and pause. -/
def handleResetTimerUpdate : ScoreboardUpdate :=
  { emptyUpdate with timer := some { endTime := none }, isPaused := some true }

/-- The partial update issued by `handleResetScores` (page.tsx lines
126-131): zero every score in both rosters, lengths unchanged. -/
def handleResetScoresUpdate (s : ScoreboardState) : ScoreboardUpdate :=
  { emptyUpdate with
    playersA := some (s.playersA.map (fun p => { p with score := 0 })),
    playersB := some (s.playersB.map (fun p => { p with score := 0 })) }

/-- The partial update issued by `handleMode` (page.tsx lines 133-143):
set `numPlayersPerTeam` and pad both rosters up to the new size. -/
def handleModeUpdate (s : ScoreboardState) (num : Nat) : ScoreboardUpdate :=
  { emptyUpdate with
    numPlayersPerTeam := some num,
    playersA := some (padRoster num s.playersA),
    playersB := some (padRoster num s.playersB) }

/-- The full document written by `handleMode` through `updateState`. -/
def handleMode (s : ScoreboardState) (num : Nat) : ScoreboardState :=
  mergeState s (handleModeUpdate s num)

/-- A partial update to one player record (`Partial<Player>`). -/
structure PlayerUpdate where
  name : Option String := none
  score : Option Int := none
deriving Repr, DecidableEq

/-- Spread-merge of a player with a partial update
(`\x7b ...player, ...updates \x7d`). -/
def mergePlayer (p : Player) (u : PlayerUpdate) : Player :=
  { name := u.name.getD p.name, score := u.score.getD p.score }

/-- The new roster built by `updatePlayer` (page.tsx lines 89-93): copy
the mirror's roster and replace entry `i` by its merge with the update.
The UI only ever passes an index inside the rendered prefix, so `i` is in
range of the roster. -/
def updatePlayerList (s : ScoreboardState) (t : Team) (i : Nat) (u : PlayerUpdate) : List Player :=
  (roster s t).set i (mergePlayer ((roster s t).getD i (placeholder 0)) u)

/-- The partial update issued by `updatePlayer`: only the mutated team's
roster field is present. -/
def updatePlayer (s : ScoreboardState) (t : Team) (i : Nat) (u : PlayerUpdate) : ScoreboardUpdate :=
  match t with
  | Team.A => { emptyUpdate with playersA := some (updatePlayerList s Team.A i u) }
  | Team.B => { emptyUpdate with playersB := some (updatePlayerList s Team.B i u) }

/-- The score-increment intent (the `+` button, page.tsx line 170):
`updatePlayer(team, i, \x7b score: player.score + 1 \x7d)`. -/
def incrementScoreUpdate (s : ScoreboardState) (t : Team) (i : Nat) : ScoreboardUpdate :=
  updatePlayer s t i { score := some (((roster s t).getD i (placeholder 0)).score + 1) }

/-- The name-edit intent (the name input, page.tsx line 153):
`updatePlayer(team, i, \x7b name: value \x7d)`. -/
def setNameUpdate (s : ScoreboardState) (t : Team) (i : Nat) (nm : String) : ScoreboardUpdate :=
  updatePlayer s t i { name := some nm }

/-- Team total (page.tsx lines 95-96): sum of the scores of the first
`numPlayersPerTeam` entries of the roster. -/
def getTeamTotal (s : ScoreboardState) (t : Team) : Int :=
  ((roster s t).take s.numPlayersPerTeam).foldl (fun sum p => sum + p.score) 0

/-- Store write `set(ref, doc)`: an unconditional full-document
overwrite; the previous store content is discarded. -/
def writeStore (_store d : ScoreboardState) : ScoreboardState := d

/-- A full document viewed as a raw snapshot with every top-level field
present. -/
def toUpdate (s : ScoreboardState) : ScoreboardUpdate :=
  { playersA := some s.playersA,
    playersB := some s.playersB,
    timer := some s.timer,
    isPaused := some s.isPaused,
    pointsToWin := some s.pointsToWin,
    numPlayersPerTeam := some s.numPlayersPerTeam }

/-! Helper lemmas about the padding loop and the countdown formula. -/

/-- Closed form of the fuelled padding loop: with enough fuel it appends
exactly the placeholders for positions `ps.length + 1 .. num`. -/
lemma padRosterGo_eq (num : Nat) :
    ∀ fuel ps, num - ps.length ≤ fuel →
      padRosterGo num fuel ps
        = ps ++ (List.range (num - ps.length)).map (fun j => placeholder (ps.length + j + 1)) := by
  intro fuel
  induction fuel with
  | zero =>
    intro ps h
    have hge : num ≤ ps.length := by omega
    have h0 : num - ps.length = 0 := by omega
    simp [padRosterGo, h0, Nat.not_lt.mpr hge]
  | succ fuel ih =>
    intro ps h
    by_cases hlt : ps.length < num
    · have hstep : padRosterGo num (fuel + 1) ps
          = padRosterGo num fuel (ps ++ [placeholder (ps.length + 1)]) := by
        simp [padRosterGo, hlt]
      have hlen : (ps ++ [placeholder (ps.length + 1)]).length = ps.length + 1 := by simp
      have hfuel : num - (ps ++ [placeholder (ps.length + 1)]).length ≤ fuel := by
        rw [hlen]; omega
      rw [hstep, ih _ hfuel, hlen]
      have hm : num - ps.length = (num - (ps.length + 1)) + 1 := by omega
      rw [hm, List.range_succ_eq_map, List.map_cons, List.map_map, List.append_assoc]
      simp only [List.cons_append, List.nil_append, List.singleton_append]
      congr 1
      · congr 1
        apply List.map_congr_left
        intro j _
        simp only [Function.comp_apply]
        congr 1
        omega
    · have h0 : num - ps.length = 0 := by omega
      simp [padRosterGo, h0, hlt]

/-- Closed form of the padding while-loop. -/
lemma padRoster_eq (num : Nat) (ps : List Player) :
    padRoster num ps
      = ps ++ (List.range (num - ps.length)).map (fun j => placeholder (ps.length + j + 1)) :=
  padRosterGo_eq num num ps (by omega)

/-- The padded roster has length exactly `max num (length ps)`. -/
lemma padRoster_length (num : Nat) (ps : List Player) :
    (padRoster num ps).length = max num ps.length := by
  rw [padRoster_eq]; simp; omega

/-- Padding only appends: the original roster is an unchanged initial
segment of the result. -/
lemma padRoster_extend (num : Nat) (ps : List Player) :
    ∃ tl, padRoster num ps = ps ++ tl :=
  ⟨_, padRoster_eq num ps⟩

/-- A roster that is already long enough is returned unchanged. -/
lemma padRoster_of_le (num : Nat) (ps : List Player) (h : num ≤ ps.length) :
    padRoster num ps = ps := by
  rw [padRoster_eq]
  have h0 : num - ps.length = 0 := by omega
  simp [h0]

/-- Every appended entry is the placeholder for its 1-based position. -/
lemma padRoster_getD (num : Nat) (ps : List Player) (i : Nat) (d : Player)
    (h1 : ps.length ≤ i) (h2 : i < (padRoster num ps).length) :
    (padRoster num ps).getD i d = placeholder (i + 1) := by
  have hlen := padRoster_length num ps
  have hi : i - ps.length < num - ps.length := by omega
  rw [padRoster_eq] at h2 ⊢
  rw [List.getD_append_right _ _ _ _ h1]
  rw [List.getD_eq_getElem _ _ (by simpa using hi)]
  simp only [List.getElem_map, List.getElem_range]
  congr 1
  omega

/-- The displayed remaining seconds are never negative. -/
lemma remainingSeconds_nonneg (s : ScoreboardState) (now : Int) :
    0 ≤ remainingSeconds s now := by
  unfold remainingSeconds
  cases h : s.timer.endTime with
  | none => norm_num [INITIAL_TIMER_SECONDS]
  | some e =>
    by_cases h0 : e = 0
    · norm_num [h0, INITIAL_TIMER_SECONDS]
    · simp [h0, le_max_left]

/-- Folding score addition over a roster computes the sum of the scores. -/
lemma foldl_add_score (ps : List Player) :
    ∀ a : Int, ps.foldl (fun sum p => sum + p.score) a = a + (ps.map Player.score).sum := by
  induction ps with
  | nil => intro a; simp
  | cons p ps ih =>
    intro a
    simp only [List.foldl_cons, List.map_cons, List.sum_cons, ih]
    ring

/-- A mode switch replaces each roster by its padding to the new size. -/
lemma roster_handleMode (s : ScoreboardState) (num : Nat) (t : Team) :
    roster (handleMode s num) t = padRoster num (roster s t) := by
  cases t <;> simp [handleMode, handleModeUpdate, mergeState, emptyUpdate, roster]

/-! Concrete documents used by witnesses and counterexamples. -/

/-- A document whose stored `endTime` is the present value 0. -/
def zeroTimerDoc : ScoreboardState :=
  { initialState with timer := { endTime := some 0 } }

/-- A running document with a concrete future `endTime`. -/
def runningDoc : ScoreboardState :=
  { initialState with isPaused := false, timer := { endTime := some 451000 } }

/-- A paused document with a small concrete `endTime`. -/
def cexPausedDoc : ScoreboardState :=
  { initialState with timer := { endTime := some 500 } }

/-- The default document resumed at t = 1000000 ms and paused again at the
same instant: paused with the stale `endTime` 1450000 still stored. -/
def pausedAtStart : ScoreboardState :=
  handleResume (handleResume initialState 1000000) 1000000

/-- The pause-wait-resume scenario: `pausedAtStart` resumed 300 real
seconds later, at t = 1300000 ms. -/
def resumedAfterWait : ScoreboardState :=
  handleResume pausedAtStart 1300000

/-- C1: pausing must freeze the countdown: after pausing with 450 s left
and waiting 300 s, resuming must display about 450 s.  The code instead
keeps evaluating the formula against the stale `endTime` while paused, so
the displayed time keeps falling during the pause and the resume reuses
the fallen value: the scenario displays 150 s, not 450 s. -/
theorem pause_wait_resume_bug :
    pausedAtStart.isPaused = true ∧
    pausedAtStart.timer.endTime = some 1450000 ∧
    remainingSeconds pausedAtStart 1000000 = 450 ∧
    remainingSeconds pausedAtStart 1300000 = 150 ∧
    remainingSeconds resumedAfterWait 1300000 = 150 ∧
    ((150 : Int) ≠ 450) := by decide

/-- C2 counterexample: the claim requires the clamped-floor formula for
every present `endTime`, including 0; but for the present value 0 the
code takes the default branch (JS truthiness) and displays 450, where the
claimed formula gives 0. -/
theorem remainingSeconds_zero_endTime_cex :
    zeroTimerDoc.timer.endTime = some 0 ∧
    remainingSeconds zeroTimerDoc 10000 = 450 ∧
    max 0 (Int.fdiv ((0 : Int) - 10000) 1000) = 0 ∧
    ((450 : Int) ≠ 0) := by decide

/-- C2 (amended): the displayed remaining time is never negative; it
equals `max 0 (floor ((endTime - now) / 1000))` whenever `endTime` is
present and nonzero; and it equals the 450-second default when `endTime`
is absent or exactly 0. -/
theorem remainingSeconds_formula (s : ScoreboardState) (now : Int) :
    0 ≤ remainingSeconds s now ∧
    (∀ e, s.timer.endTime = some e → e ≠ 0 →
      remainingSeconds s now = max 0 (Int.fdiv (e - now) 1000)) ∧
    (s.timer.endTime = none → remainingSeconds s now = INITIAL_TIMER_SECONDS) ∧
    (s.timer.endTime = some 0 → remainingSeconds s now = INITIAL_TIMER_SECONDS) := by
  refine ⟨remainingSeconds_nonneg s now, ?_, ?_, ?_⟩
  · intro e he h0
    simp [remainingSeconds, he, h0]
  · intro he
    simp [remainingSeconds, he]
  · intro he
    simp [remainingSeconds, he]

/-- C2 witness: the formula branch at a running document and the default
branch at the initial document, at concrete times. -/
theorem remainingSeconds_formula_witness :
    remainingSeconds runningDoc 1000 = max 0 (Int.fdiv ((451000 : Int) - 1000) 1000) ∧
    remainingSeconds initialState 0 = INITIAL_TIMER_SECONDS :=
  ⟨(remainingSeconds_formula runningDoc 1000).2.1 451000 rfl (by norm_num),
   (remainingSeconds_formula initialState 0).2.2.1 rfl⟩

/-- C3 counterexample: with corrected time -100000 ms (a clock offset of
huge negative magnitude), resuming the paused document with remaining
time 100 s writes `endTime = -100000 + 100 * 1000 = 0`, which the read
formula treats as absent: the immediate read yields 450, not 100 within
one second. -/
theorem resume_immediate_read_cex :
    cexPausedDoc.isPaused = true ∧
    remainingSeconds cexPausedDoc (serverNow 0 (-100000)) = 100 ∧
    remainingSeconds (handleResume cexPausedDoc (serverNow 0 (-100000)))
      (serverNow 0 (-100000)) = 450 ∧
    ¬ (((450 : Int) - 100) ≤ 1) := by decide

/-- C3 (amended): resuming a paused document with remaining seconds `R`
and immediately re-evaluating the formula at the same corrected time
yields exactly `R`, for every clock offset — except when the written
`endTime = correctedNow + R * 1000` is exactly 0, which the read treats
as an absent timer. -/
theorem resume_immediate_read (s : ScoreboardState) (localNow offset : Int)
    (hp : s.isPaused = true)
    (h0 : serverNow localNow offset
        + remainingSeconds s (serverNow localNow offset) * 1000 ≠ 0) :
    remainingSeconds (handleResume s (serverNow localNow offset)) (serverNow localNow offset)
      = remainingSeconds s (serverNow localNow offset) := by
  set now := serverNow localNow offset with hnow
  set R := remainingSeconds s now with hR
  have hnn : 0 ≤ R := remainingSeconds_nonneg s now
  have hres : handleResume s now
      = { s with timer := { endTime := some (now + R * 1000) }, isPaused := false } := by
    simp [handleResume, handleResumeUpdate, hp, mergeState, emptyUpdate, hR]
  rw [hres]
  simp only [remainingSeconds]
  rw [if_neg h0]
  have harith : now + R * 1000 - now = R * 1000 := by ring
  rw [harith, Int.mul_fdiv_cancel R (by norm_num : (1000 : Int) ≠ 0)]
  exact max_eq_right hnn

/-- C3 witness: the initial paused document resumed at corrected time
-3000 ms (local time 2000, offset -5000) reads back its 450 seconds. -/
theorem resume_immediate_read_witness :
    remainingSeconds (handleResume initialState (serverNow 2000 (-5000)))
        (serverNow 2000 (-5000))
      = remainingSeconds initialState (serverNow 2000 (-5000)) :=
  resume_immediate_read initialState 2000 (-5000) rfl (by decide)

/-- C10: a stored `endTime` of exactly 0 is falsy in JS, so the code
takes the default branch exactly as for an absent timer and displays the
full 450 seconds; the clamped formula at a past instant would give 0. -/
theorem endTime_zero_default (s : ScoreboardState) (now : Int)
    (h : s.timer.endTime = some 0) :
    remainingSeconds s now = INITIAL_TIMER_SECONDS ∧
    remainingSeconds { s with timer := { endTime := none } } now = remainingSeconds s now ∧
    (0 < now → max 0 (Int.fdiv ((0 : Int) - now) 1000) = 0) := by
  refine ⟨by simp [remainingSeconds, h], by simp [remainingSeconds, h], ?_⟩
  intro hnow
  have hneg : (0 : Int) - now < 0 := by omega
  have hlt := Int.fdiv_neg' hneg (by norm_num : (0 : Int) < 1000)
  exact max_eq_left (le_of_lt hlt)

/-- C10 witness: the zero-`endTime` document at a concrete positive
time. -/
theorem endTime_zero_default_witness :
    remainingSeconds zeroTimerDoc 987654 = INITIAL_TIMER_SECONDS ∧
    max 0 (Int.fdiv ((0 : Int) - 987654) 1000) = 0 :=
  ⟨(endTime_zero_default zeroTimerDoc 987654 rfl).1,
   (endTime_zero_default zeroTimerDoc 987654 rfl).2.2 (by norm_num)⟩

/-- Evaluation of the subscription callback when both roster fields are
present: the repair loop pads both rosters, then the result is merged
over the defaults. -/
lemma processSnapshot_some_eq (d : ScoreboardUpdate) (pa pb : List Player)
    (ha : d.playersA = some pa) (hb : d.playersB = some pb) :
    processSnapshot (some d) = Except.ok (mergeState initialState
      { d with playersA := some (padRoster 3 pa), playersB := some (padRoster 3 pb) }) := by
  simp [processSnapshot, ha, hb]

/-- Evaluation of the subscription callback when the `playersA` field is
missing: the repair loop dereferences it and throws. -/
lemma processSnapshot_missing_a (d : ScoreboardUpdate) (ha : d.playersA = none) :
    processSnapshot (some d)
      = Except.error "TypeError: cannot read length of undefined" := by
  simp [processSnapshot, ha]

/-- Evaluation of the subscription callback when `playersA` is present
but `playersB` is missing. -/
lemma processSnapshot_missing_b (d : ScoreboardUpdate) (pa : List Player)
    (ha : d.playersA = some pa) (hb : d.playersB = none) :
    processSnapshot (some d)
      = Except.error "TypeError: cannot read length of undefined" := by
  simp [processSnapshot, ha, hb]

/-- C4 counterexample: on the bootstrap path (empty store key) the
callback writes and exposes `initialState`, whose rosters have only 2
entries each — the at-least-3 invariant does not cover the bootstrap
snapshot. -/
theorem bootstrap_roster_cex :
    processSnapshot none = Except.ok initialState ∧
    initialState.playersA.length = 2 ∧
    initialState.playersB.length = 2 ∧
    ¬ (3 ≤ initialState.playersA.length) :=
  ⟨rfl, rfl, rfl, by decide⟩

/-- C4 (amended): every snapshot exposed through the repair path (a
non-null incoming document) has at least 3 entries per roster, and no
operation removes roster entries (padding only appends, player updates
and score resets preserve roster length); the bootstrap default, exposed
when the store key is empty, is the exception with 2 entries per
roster. -/
theorem roster_invariant (d : ScoreboardUpdate) (s : ScoreboardState) (num : Nat) :
    (∀ out, processSnapshot (some d) = Except.ok out →
        3 ≤ out.playersA.length ∧ 3 ≤ out.playersB.length) ∧
    (∀ ps : List Player, ∃ tl, padRoster num ps = ps ++ tl) ∧
    (∃ tlA tlB, (handleMode s num).playersA = s.playersA ++ tlA
      ∧ (handleMode s num).playersB = s.playersB ++ tlB) ∧
    (∀ t i u, (updatePlayerList s t i u).length = (roster s t).length) ∧
    ((mergeState s (handleResetScoresUpdate s)).playersA.length = s.playersA.length ∧
     (mergeState s (handleResetScoresUpdate s)).playersB.length = s.playersB.length) := by
  refine ⟨?_, fun ps => padRoster_extend num ps, ?_, ?_, ?_⟩
  · intro out hout
    cases hA : d.playersA with
    | none =>
      rw [processSnapshot_missing_a d hA] at hout
      simp at hout
    | some pa =>
      cases hB : d.playersB with
      | none =>
        rw [processSnapshot_missing_b d pa hA hB] at hout
        simp at hout
      | some pb =>
        rw [processSnapshot_some_eq d pa pb hA hB] at hout
        simp only [Except.ok.injEq] at hout
        subst hout
        constructor
        · show 3 ≤ (padRoster 3 pa).length
          rw [padRoster_length]; omega
        · show 3 ≤ (padRoster 3 pb).length
          rw [padRoster_length]; omega
  · obtain ⟨tlA, hA⟩ := padRoster_extend num s.playersA
    obtain ⟨tlB, hB⟩ := padRoster_extend num s.playersB
    refine ⟨tlA, tlB, ?_, ?_⟩
    · show padRoster num s.playersA = s.playersA ++ tlA
      exact hA
    · show padRoster num s.playersB = s.playersB ++ tlB
      exact hB
  · intro t i u
    simp [updatePlayerList]
  · constructor <;> simp [mergeState, handleResetScoresUpdate, emptyUpdate]

/-- The repaired, default-merged document exposed when the bootstrap
default is echoed back through the subscription callback. -/
def repairedBootstrapDoc : ScoreboardState :=
  mergeState initialState
    { toUpdate initialState with
      playersA := some (padRoster 3 initialState.playersA),
      playersB := some (padRoster 3 initialState.playersB) }

/-- C4 witness: the echoed bootstrap document is repaired to 3 entries
per roster. -/
theorem roster_invariant_witness :
    3 ≤ repairedBootstrapDoc.playersA.length ∧
    3 ≤ repairedBootstrapDoc.playersB.length :=
  (roster_invariant (toUpdate initialState) initialState 3).1
    repairedBootstrapDoc rfl

/-- A legacy-shaped document with no `playersA` field. -/
def legacyDoc : ScoreboardUpdate :=
  { playersB := some [placeholder 1], isPaused := some true }

/-- C5 counterexample: a non-null document missing the `playersA` field
makes the repair loop read `.length` of an absent value, raising a
TypeError instead of being handled locally. -/
theorem repair_missing_field_cex :
    legacyDoc.playersA = none ∧
    processSnapshot (some legacyDoc)
      = Except.error "TypeError: cannot read length of undefined" :=
  ⟨rfl, rfl⟩

/-- C5 (amended): the repair-and-merge pass completes without error for
every non-null document in which both roster fields are present (other
top-level fields may be missing and are filled from the defaults); a
document missing a roster field raises a TypeError. -/
theorem repair_merge_no_error (d : ScoreboardUpdate) (pa pb : List Player)
    (ha : d.playersA = some pa) (hb : d.playersB = some pb) :
    processSnapshot (some d) = Except.ok (mergeState initialState
      { d with playersA := some (padRoster 3 pa), playersB := some (padRoster 3 pb) }) :=
  processSnapshot_some_eq d pa pb ha hb

/-- C5 witness: the full bootstrap document round-trips through the
repair pass without error. -/
theorem repair_merge_no_error_witness :
    processSnapshot (some (toUpdate initialState)) = Except.ok repairedBootstrapDoc :=
  repair_merge_no_error (toUpdate initialState)
    initialState.playersA initialState.playersB rfl rfl

/-- C6: the repair pass pads a roster to exactly `max 3 (original
length)`, keeps the original entries unchanged and in order as an
initial segment, appends only tail placeholders named for their 1-based
positions, and is the identity on rosters that already have at least 3
entries; a full document with both rosters of length at least 3 passes
through the callback unchanged. -/
theorem repair_pass_spec (ps : List Player) (s : ScoreboardState) :
    (padRoster 3 ps).length = max 3 ps.length ∧
    (∃ tl, padRoster 3 ps = ps ++ tl) ∧
    (∀ i, ps.length ≤ i → i < (padRoster 3 ps).length →
      (padRoster 3 ps).getD i (placeholder 0) = placeholder (i + 1)) ∧
    (3 ≤ ps.length → padRoster 3 ps = ps) ∧
    (3 ≤ s.playersA.length → 3 ≤ s.playersB.length →
      processSnapshot (some (toUpdate s)) = Except.ok s) := by
  refine ⟨padRoster_length 3 ps, padRoster_extend 3 ps, ?_, padRoster_of_le 3 ps, ?_⟩
  · intro i h1 h2
    exact padRoster_getD 3 ps i _ h1 h2
  · intro hA hB
    rw [processSnapshot_some_eq (toUpdate s) s.playersA s.playersB rfl rfl]
    rw [padRoster_of_le 3 _ hA, padRoster_of_le 3 _ hB]
    rfl

/-- A document whose rosters already have exactly 3 players each. -/
def threeDoc : ScoreboardState :=
  { initialState with
    playersA := [placeholder 1, placeholder 2, placeholder 3],
    playersB := [placeholder 1, placeholder 2, placeholder 3] }

/-- C6 witness: padding a 1-player roster puts the placeholder for
position 3 at index 2, and a 3-player document passes through the
callback unchanged. -/
theorem repair_pass_spec_witness :
    (padRoster 3 [placeholder 1]).getD 2 (placeholder 0) = placeholder 3 ∧
    processSnapshot (some (toUpdate threeDoc)) = Except.ok threeDoc :=
  ⟨(repair_pass_spec [placeholder 1] threeDoc).2.2.1 2 (by decide) (by decide),
   (repair_pass_spec [placeholder 1] threeDoc).2.2.2.2 (by decide) (by decide)⟩

/-- C7: writes are unconditional full-document overwrites with no
sub-field merging: after client 1 writes its mirror `M` merged with a
score increment and client 2 (still holding the stale mirror `M`) writes
`M` merged with a name change, the store equals client 2's merged
document exactly, and client 1's roster change is entirely absent (the
final `playersA` is `M`'s, and client 1's write had kept `M`'s
`playersB`). -/
theorem last_write_wins (store0 M : ScoreboardState) (i j : Nat) (nm : String) :
    writeStore (writeStore store0 (mergeState M (incrementScoreUpdate M Team.A i)))
        (mergeState M (setNameUpdate M Team.B j nm))
      = mergeState M (setNameUpdate M Team.B j nm) ∧
    (mergeState M (setNameUpdate M Team.B j nm)).playersA = M.playersA ∧
    (mergeState M (incrementScoreUpdate M Team.A i)).playersB = M.playersB := by
  refine ⟨rfl, ?_, ?_⟩
  · simp [setNameUpdate, updatePlayer, mergeState, emptyUpdate]
  · simp [incrementScoreUpdate, updatePlayer, mergeState, emptyUpdate]

/-- C8: `updateState` writes the mirror shallow-merged with the partial
update — every top-level field absent from the update is carried over
verbatim — and the pause transition issues the partial update
containing only `isPaused = true`, so the written document differs from
the mirror only in `isPaused`. -/
theorem mutate_shallow_merge_frame (s : ScoreboardState) (u : ScoreboardUpdate) (now : Int) :
    (u.playersA = none → (mergeState s u).playersA = s.playersA) ∧
    (u.playersB = none → (mergeState s u).playersB = s.playersB) ∧
    (u.timer = none → (mergeState s u).timer = s.timer) ∧
    (u.isPaused = none → (mergeState s u).isPaused = s.isPaused) ∧
    (u.pointsToWin = none → (mergeState s u).pointsToWin = s.pointsToWin) ∧
    (u.numPlayersPerTeam = none →
      (mergeState s u).numPlayersPerTeam = s.numPlayersPerTeam) ∧
    (s.isPaused = false →
      handleResumeUpdate s now = { emptyUpdate with isPaused := some true } ∧
      handleResume s now = { s with isPaused := true }) := by
  refine ⟨fun h => by simp [mergeState, h], fun h => by simp [mergeState, h],
    fun h => by simp [mergeState, h], fun h => by simp [mergeState, h],
    fun h => by simp [mergeState, h], fun h => by simp [mergeState, h], fun h => ?_⟩
  have hu : handleResumeUpdate s now = { emptyUpdate with isPaused := some true } := by
    simp [handleResumeUpdate, h]
  exact ⟨hu, by rw [handleResume, hu]; rfl⟩

/-- C8 witness: pausing the concrete running document changes only
`isPaused`, and merging the empty update changes nothing. -/
theorem mutate_shallow_merge_frame_witness :
    (mergeState runningDoc emptyUpdate).timer = runningDoc.timer ∧
    handleResume runningDoc 12345 = { runningDoc with isPaused := true } :=
  ⟨(mutate_shallow_merge_frame runningDoc emptyUpdate 12345).2.2.1 rfl,
   ((mutate_shallow_merge_frame runningDoc emptyUpdate 12345).2.2.2.2.2.2 rfl).2⟩

/-- C9: a mode switch pads each roster up to the new size with tail
placeholders, never removes a player (the old roster is an unchanged
initial segment; switching down to 2 with at least 2 players is the
identity on rosters, keeping the third player's data), and the team
total is the sum of the scores of exactly the first `numPlayersPerTeam`
roster entries. -/
theorem mode_switch_spec (s : ScoreboardState) (num : Nat) (t : Team) :
    (∃ tl, roster (handleMode s num) t = roster s t ++ tl) ∧
    ((roster (handleMode s 3) t).length = max 3 (roster s t).length) ∧
    (∀ i, (roster s t).length ≤ i → i < (roster (handleMode s 3) t).length →
      (roster (handleMode s 3) t).getD i (placeholder 0) = placeholder (i + 1)) ∧
    (2 ≤ (roster s t).length → roster (handleMode s 2) t = roster s t) ∧
    ((handleMode s num).numPlayersPerTeam = num) ∧
    (getTeamTotal s t = (((roster s t).take s.numPlayersPerTeam).map Player.score).sum) := by
  refine ⟨?_, ?_, ?_, ?_, ?_, ?_⟩
  · rw [roster_handleMode]
    exact padRoster_extend num (roster s t)
  · rw [roster_handleMode]
    exact padRoster_length 3 (roster s t)
  · intro i h1 h2
    rw [roster_handleMode] at h2 ⊢
    exact padRoster_getD 3 (roster s t) i _ h1 h2
  · intro h
    rw [roster_handleMode]
    exact padRoster_of_le 2 (roster s t) h
  · simp [handleMode, handleModeUpdate, mergeState, emptyUpdate]
  · rw [getTeamTotal, foldl_add_score]
    simp

/-- C9 witness: switching the initial 2-player document down to 2 keeps
its rosters, and switching it up to 3 appends the position-3
placeholder. -/
theorem mode_switch_spec_witness :
    roster (handleMode initialState 2) Team.A = roster initialState Team.A ∧
    (roster (handleMode initialState 3) Team.A).getD 2 (placeholder 0) = placeholder 3 :=
  ⟨(mode_switch_spec initialState 2 Team.A).2.2.2.1 (by decide),
   (mode_switch_spec initialState 3 Team.A).2.2.1 2 (by decide) (by decide)⟩

end NerfWars
